import Mathlib

/-!
Verification of the core of a vehicle-telemetry exporter: OAuth token
lifecycle (tesla_auth.py), resilient API client (tesla_client.py) and
adaptive poll scheduler (sleep_tracker.py), shallowly embedded in Lean.
Timestamps are modelled as integers (seconds); HTTP traffic is modelled
as a list of responses consumed one per attempt; the filesystem holding
the credential file is modelled as an explicit state record.
-/

namespace TeslaExporter

/-- The persisted/in-memory credential record (a JSON dict in the source,
so every field may be absent). Mirrors the dict built in
tesla_auth.py refresh_access_token and exchange_code. -/
structure TokenData where
  access_token : Option String
  refresh_token : Option String
  expires_at : Option Int
  token_type : Option String
  created_at : Option Int
deriving DecidableEq, Repr

/-- State of the credential file on disk: the parsed content of the token
file (none when absent) and whether a temporary file from an interrupted
save is present. -/
structure FsState where
  file : Option TokenData
  tmp : Bool
deriving DecidableEq, Repr

/-- Step of save_token at which an OSError occurs (none of these when the
save succeeds): tempfile.mkstemp, the json.dump write, or os.replace. -/
inductive SaveStep where
  | mkstemp
  | write
  | replace
deriving DecidableEq, Repr

/-- Result of save_token: whether an exception propagated to the caller,
the in-memory token state afterwards, and the filesystem afterwards. -/
structure SaveResult where
  raised : Bool
  auth : Option TokenData
  fs : FsState
deriving DecidableEq, Repr

/-- TeslaAuth.save_token. Writes the record to a temp file in the target
directory, atomically renames it over the token file, and only then adopts
the record in memory. On OSError the temp file (if created) is unlinked and
the failure propagates; the in-memory record and the target file are left
as they were. -/
def save_token (fail : Option SaveStep) (token_data : TokenData)
    (auth : Option TokenData) (fs : FsState) : SaveResult :=
  match fail with
  | some .mkstemp => ⟨true, auth, fs⟩
  | some .write => ⟨true, auth, { fs with tmp := false }⟩
  | some .replace => ⟨true, auth, { fs with tmp := false }⟩
  | none => ⟨false, some token_data, { file := some token_data, tmp := false }⟩

/-- TeslaAuth.load_token. Returns whether a record was loaded, and the
in-memory token state afterwards (set from the file on success, unchanged
when the file is absent). -/
def load_token (fs : FsState) (auth : Option TokenData) :
    Bool × Option TokenData :=
  match fs.file with
  | none => (false, auth)
  | some td => (true, some td)

/-- TeslaAuth.is_token_valid: true when the current time is strictly before
expires_at minus the 300-second proactive-refresh margin (expires_at
defaults to 0 when absent). -/
def is_token_valid (now : Int) (auth : Option TokenData) : Bool :=
  match auth with
  | none => false
  | some td => decide (now < td.expires_at.getD 0 - 300)

/-- TeslaAuth.access_token, with the refresh call abstracted as a state
transformer. Returns the token served to the caller, the in-memory state
afterwards, and the number of calls made to refresh_access_token. -/
def access_token (now : Int) (refresh : Option TokenData → Option TokenData)
    (auth : Option TokenData) : Option String × Option TokenData × Nat :=
  match auth with
  | none => (none, auth, 0)
  | some _ =>
    if is_token_valid now auth then
      (auth.bind TokenData.access_token, auth, 0)
    else
      let auth2 := refresh auth
      (auth2.bind TokenData.access_token, auth2, 1)

/-! Sleep tracker (sleep_tracker.py). -/

/-- The two configured poll intervals read by SleepTracker. -/
structure SleepConfig where
  poll_interval_seconds : Nat
  sleep_poll_interval_seconds : Nat
deriving DecidableEq, Repr

/-- The mutable state of SleepTracker: last observed vehicle state and the
consecutive-error counter. -/
structure SleepTracker where
  last_known_state : String
  consecutive_errors : Nat
deriving DecidableEq, Repr

/-- SleepTracker.update_state: record the observed state and reset the
consecutive-error counter (the state-change log line has no effect on
state). -/
def update_state (_t : SleepTracker) (state : String) : SleepTracker :=
  { last_known_state := state, consecutive_errors := 0 }

/-- SleepTracker.record_error: increment the consecutive-error counter. -/
def record_error (t : SleepTracker) : SleepTracker :=
  { t with consecutive_errors := t.consecutive_errors + 1 }

/-- SleepTracker.get_poll_interval: with at least 5 consecutive errors,
the larger of the two intervals; else the sleep interval when the last
known state is asleep, offline or unknown; else the normal interval. -/
def get_poll_interval (cfg : SleepConfig) (t : SleepTracker) : Nat :=
  if 5 ≤ t.consecutive_errors then
    max cfg.poll_interval_seconds cfg.sleep_poll_interval_seconds
  else if t.last_known_state = "asleep" ∨ t.last_known_state = "offline" ∨
      t.last_known_state = "unknown" then
    cfg.sleep_poll_interval_seconds
  else
    cfg.poll_interval_seconds

/-! Token refresh (tesla_auth.py refresh_access_token). -/

/-- Parsed JSON body of a 200 response from the OAuth token endpoint; the
source indexes access_token and refresh_token (KeyError when absent) and
uses defaults for expires_in and token_type. -/
structure RespData where
  access_token : Option String
  refresh_token : Option String
  expires_in : Option Int
  token_type : Option String
deriving DecidableEq, Repr

/-- One HTTP exchange against the token endpoint: a 200 with a parsed
body, a non-200 status, or a requests.RequestException. -/
inductive HttpResult where
  | ok (data : RespData)
  | status (code : Nat)
  | exc
deriving DecidableEq, Repr

/-- How refresh_access_token returned: normally after a successful save,
early because no credential or no refresh_token is held, by a KeyError
from a 200 body missing a token field, by an OSError escaping save_token,
or by exhausting all 5 attempts. -/
inductive RefreshOutcome where
  | ok
  | noRefreshToken
  | keyError
  | saveError
  | exhausted
deriving DecidableEq, Repr

/-- Result of refresh_access_token: how it returned, the in-memory token
state, the filesystem, and the backoff sleeps performed (seconds, in
order). -/
structure RefreshResult where
  outcome : RefreshOutcome
  auth : Option TokenData
  fs : FsState
  sleeps : List Int
deriving DecidableEq, Repr

/-- The retry loop of refresh_access_token: fuel counts the remaining
attempts (5 at entry), responses are consumed one per attempt (attempts
past the end of the list are modelled as transport failures). After a
failed attempt that is not the last, sleep min(backoff, 60) and double
the backoff. When all attempts fail, the held credential is discarded. -/
def refreshLoop (now : Int) (saveFail : Option SaveStep) :
    Nat → Int → List HttpResult → Option TokenData → FsState → RefreshResult
  | 0, _, _, _, fs => ⟨.exhausted, none, fs, []⟩
  | fuel + 1, backoff, resps, auth, fs =>
    match resps.headD .exc with
    | .ok data =>
      match data.access_token, data.refresh_token with
      | some at_, some rt =>
        let td : TokenData :=
          { access_token := some at_
            refresh_token := some rt
            expires_at := some (now + data.expires_in.getD 3600)
            token_type := some (data.token_type.getD "Bearer")
            created_at := some now }
        let sr := save_token saveFail td auth fs
        if sr.raised then ⟨.saveError, sr.auth, sr.fs, []⟩
        else ⟨.ok, sr.auth, sr.fs, []⟩
      | _, _ => ⟨.keyError, auth, fs, []⟩
    | _ =>
      let r := refreshLoop now saveFail fuel (backoff * 2) resps.tail auth fs
      { r with sleeps := (if fuel ≠ 0 then [min backoff 60] else []) ++ r.sleeps }

/-- TeslaAuth.refresh_access_token: returns immediately when no credential
is held or the held record has no refresh_token; otherwise runs up to 5
attempts with exponential backoff starting at 1 second. -/
def refresh_access_token (now : Int) (responses : List HttpResult)
    (saveFail : Option SaveStep) (auth : Option TokenData) (fs : FsState) :
    RefreshResult :=
  match auth with
  | none => ⟨.noRefreshToken, auth, fs, []⟩
  | some td =>
    match td.refresh_token with
    | none => ⟨.noRefreshToken, auth, fs, []⟩
    | some _ => refreshLoop now saveFail 5 1 responses auth fs

/-! API client (tesla_client.py TeslaClient._request). -/

/-- One HTTP exchange against the vehicle API: a 200 with a body, a
non-200 status (with the optional Retry-After header, read only on 429),
or a requests.RequestException. -/
inductive ClientResp where
  | ok (body : String)
  | status (code : Nat) (retryAfter : Option Int)
  | exc
deriving DecidableEq, Repr

/-- The credential manager as seen by the client: obtaining a token (the
access_token property, which may itself mutate auth state) and forcing a
refresh. -/
structure AuthModel (α : Type) where
  getToken : α → Option String × α
  refresh : α → α

/-- Result of one _request call: the parsed body (none on failure), the
auth state afterwards, the sleeps performed (seconds, in order), the
number of refresh calls forced by the 401 branch, and the number of HTTP
requests issued. -/
structure ReqResult (α : Type) where
  result : Option String
  auth : α
  sleeps : List Int
  refreshes : Nat
  requests : Nat

/-- The retry loop of TeslaClient._request: fuel counts the remaining
attempts (3 at entry), first marks the first attempt (attempt == 0 in the
source), responses are consumed one per attempt. 200 returns the body;
401 on the first attempt forces a refresh and retries with no delay while
a later 401 falls through to the terminal 4xx branch; 408 is terminal;
429 sleeps Retry-After (default 30) and retries; 500+ and transport
failures back off (min(backoff, 60), doubling) unless this was the last
attempt. -/
def requestLoop {α : Type} (am : AuthModel α) :
    Nat → Bool → Int → List ClientResp → α → ReqResult α
  | 0, _, _, _, a => ⟨none, a, [], 0, 0⟩
  | fuel + 1, first, backoff, resps, a =>
    match am.getToken a with
    | (none, a2) => ⟨none, a2, [], 0, 0⟩
    | (some _, a2) =>
      match resps.headD .exc with
      | .ok body => ⟨some body, a2, [], 0, 1⟩
      | .status code ra =>
        if code = 401 ∧ first then
          let r := requestLoop am fuel false backoff resps.tail (am.refresh a2)
          ⟨r.result, r.auth, r.sleeps, r.refreshes + 1, r.requests + 1⟩
        else if code = 408 then ⟨none, a2, [], 0, 1⟩
        else if code = 429 then
          let r := requestLoop am fuel false backoff resps.tail a2
          ⟨r.result, r.auth, ra.getD 30 :: r.sleeps, r.refreshes, r.requests + 1⟩
        else if 500 ≤ code then
          let r := requestLoop am fuel false (backoff * 2) resps.tail a2
          ⟨r.result, r.auth,
            (if fuel ≠ 0 then [min backoff 60] else []) ++ r.sleeps,
            r.refreshes, r.requests + 1⟩
        else ⟨none, a2, [], 0, 1⟩
      | .exc =>
        let r := requestLoop am fuel false (backoff * 2) resps.tail a2
        ⟨r.result, r.auth,
          (if fuel ≠ 0 then [min backoff 60] else []) ++ r.sleeps,
          r.refreshes, r.requests + 1⟩

/-- TeslaClient._request: up to 3 attempts, backoff starting at 1 second. -/
def request {α : Type} (am : AuthModel α) (resps : List ClientResp) (a : α) :
    ReqResult α :=
  requestLoop am 3 true 1 resps a

/-- Whether a token-endpoint exchange is anything other than a 200 whose
body carries both access_token and refresh_token (so handling it can
never reach the save). -/
def lacksTokenField : HttpResult → Bool
  | .ok d => d.access_token.isNone || d.refresh_token.isNone
  | .status _ => true
  | .exc => true

/-- Whether a token-endpoint exchange is a failed attempt (non-200 status
or transport failure). -/
def isFailure : HttpResult → Bool
  | .ok _ => false
  | .status _ => true
  | .exc => true

/-- A degenerate credential manager that always hands out the same token
and whose refresh does nothing; used to instantiate client theorems on
concrete runs. -/
def constAuth : AuthModel Unit where
  getToken := fun _ => (some "tok", ())
  refresh := fun _ => ()

/-! Theorems. -/

/-- C1: with a held credential whose expires_at is more than 300 seconds
after now, the access_token property returns the held token with no
refresh call; with expires_at within 300 seconds of now or in the past,
it makes exactly one refresh call and returns the token held after the
refresh. -/
theorem access_token_refresh_policy (now : Int)
    (refresh : Option TokenData → Option TokenData) (td : TokenData) :
    (300 < td.expires_at.getD 0 - now →
      access_token now refresh (some td) = (td.access_token, some td, 0)) ∧
    (td.expires_at.getD 0 - now ≤ 300 →
      access_token now refresh (some td) =
        ((refresh (some td)).bind TokenData.access_token,
          refresh (some td), 1)) := by
  constructor
  · intro h
    have hv : now < td.expires_at.getD 0 - 300 := by omega
    simp [access_token, is_token_valid, hv]
  · intro h
    have hv : ¬ now < td.expires_at.getD 0 - 300 := by omega
    simp [access_token, is_token_valid, hv]

/-- Witness for C1 at concrete inputs: a credential expiring 1000 seconds
from now is served without refresh; one expiring 100 seconds from now
goes through exactly one (here identity) refresh call. -/
theorem access_token_refresh_policy_witness :
    access_token 0 id (some ⟨some "tok", some "r", some 1000, none, none⟩) =
      (some "tok", some ⟨some "tok", some "r", some 1000, none, none⟩, 0) ∧
    access_token 0 id (some ⟨some "tok", some "r", some 100, none, none⟩) =
      (some "tok", some ⟨some "tok", some "r", some 100, none, none⟩, 1) := by
  constructor
  · exact (access_token_refresh_policy 0 id
      ⟨some "tok", some "r", some 1000, none, none⟩).1 (by decide)
  · have h := (access_token_refresh_policy 0 id
      ⟨some "tok", some "r", some 100, none, none⟩).2 (by decide)
    simpa using h

/-- C2: when save_token fails at any step, the exception propagates, the
in-memory credential is not replaced, the previously persisted file is
intact, and no temporary file is left behind. -/
theorem save_token_failure_atomic (fail : SaveStep) (token_data : TokenData)
    (auth : Option TokenData) (fs : FsState) (hfs : fs.tmp = false) :
    (save_token (some fail) token_data auth fs).raised = true ∧
    (save_token (some fail) token_data auth fs).auth = auth ∧
    (save_token (some fail) token_data auth fs).fs.file = fs.file ∧
    (save_token (some fail) token_data auth fs).fs.tmp = false := by
  cases fail <;> simp [save_token, hfs]

/-- Witness for C2: a failure at the rename step with a concrete record
and a concrete previously persisted file. -/
theorem save_token_failure_atomic_witness :
    (save_token (some .replace) ⟨some "n", some "nr", some 5, none, none⟩
        (some ⟨some "o", some "orr", some 1, none, none⟩)
        ⟨some ⟨some "o", some "orr", some 1, none, none⟩, false⟩).raised = true ∧
    (save_token (some .replace) ⟨some "n", some "nr", some 5, none, none⟩
        (some ⟨some "o", some "orr", some 1, none, none⟩)
        ⟨some ⟨some "o", some "orr", some 1, none, none⟩, false⟩).auth =
      some ⟨some "o", some "orr", some 1, none, none⟩ ∧
    (save_token (some .replace) ⟨some "n", some "nr", some 5, none, none⟩
        (some ⟨some "o", some "orr", some 1, none, none⟩)
        ⟨some ⟨some "o", some "orr", some 1, none, none⟩, false⟩).fs.file =
      some ⟨some "o", some "orr", some 1, none, none⟩ ∧
    (save_token (some .replace) ⟨some "n", some "nr", some 5, none, none⟩
        (some ⟨some "o", some "orr", some 1, none, none⟩)
        ⟨some ⟨some "o", some "orr", some 1, none, none⟩, false⟩).fs.tmp =
      false :=
  save_token_failure_atomic .replace ⟨some "n", some "nr", some 5, none, none⟩
    (some ⟨some "o", some "orr", some 1, none, none⟩)
    ⟨some ⟨some "o", some "orr", some 1, none, none⟩, false⟩ (by decide)

/-- C7: get_poll_interval returns the max of the two intervals whenever
the consecutive-error counter is at least 5; below 5 errors it returns
the sleep interval for last known state asleep, offline or unknown and
the normal interval for online; and after observing online and then 5
record_error calls it returns the max. -/
theorem poll_interval_policy (cfg : SleepConfig) (t : SleepTracker) :
    (5 ≤ t.consecutive_errors →
      get_poll_interval cfg t =
        max cfg.poll_interval_seconds cfg.sleep_poll_interval_seconds) ∧
    (t.consecutive_errors < 5 →
      ((t.last_known_state = "asleep" ∨ t.last_known_state = "offline" ∨
          t.last_known_state = "unknown") →
        get_poll_interval cfg t = cfg.sleep_poll_interval_seconds) ∧
      (t.last_known_state = "online" →
        get_poll_interval cfg t = cfg.poll_interval_seconds)) ∧
    get_poll_interval cfg
        (record_error (record_error (record_error (record_error
          (record_error (update_state t "online")))))) =
      max cfg.poll_interval_seconds cfg.sleep_poll_interval_seconds := by
  refine ⟨?_, ?_, ?_⟩
  · intro h
    simp [get_poll_interval, h]
  · intro h
    have h5 : ¬ 5 ≤ t.consecutive_errors := by omega
    constructor
    · intro hs
      simp [get_poll_interval, h5, hs]
    · intro hs
      simp [get_poll_interval, h5, hs]
  · simp [get_poll_interval, record_error, update_state]

/-- Witness for C7: concrete intervals 300 and 660, a tracker with 5
errors, trackers with 0 errors in states asleep and online, and the
5-fold record_error run. -/
theorem poll_interval_policy_witness :
    get_poll_interval ⟨300, 660⟩ ⟨"online", 5⟩ = max 300 660 ∧
    get_poll_interval ⟨300, 660⟩ ⟨"asleep", 0⟩ = 660 ∧
    get_poll_interval ⟨300, 660⟩ ⟨"online", 0⟩ = 300 ∧
    get_poll_interval ⟨300, 660⟩
        (record_error (record_error (record_error (record_error
          (record_error (update_state ⟨"offline", 3⟩ "online")))))) =
      max 300 660 :=
  ⟨(poll_interval_policy ⟨300, 660⟩ ⟨"online", 5⟩).1 (by decide),
    ((poll_interval_policy ⟨300, 660⟩ ⟨"asleep", 0⟩).2.1 (by decide)).1
      (by simp),
    ((poll_interval_policy ⟨300, 660⟩ ⟨"online", 0⟩).2.1 (by decide)).2 rfl,
    (poll_interval_policy ⟨300, 660⟩ ⟨"offline", 3⟩).2.2⟩

/-- C8: saving a credential record succeeds and loading afterwards yields
exactly the saved record (equal in all fields; timestamps are integers in
this model, and the serializer round-trips every field). -/
theorem save_load_round_trip (td : TokenData) (auth auth2 : Option TokenData)
    (fs : FsState) :
    (save_token none td auth fs).raised = false ∧
    load_token (save_token none td auth fs).fs auth2 = (true, some td) := by
  simp [save_token, load_token]

/-- Helper: when every response in the trace lacks a token field (or is
not a 200 at all), the refresh retry loop never reaches the save and the
filesystem is untouched. -/
theorem refreshLoop_lacking_preserves_fs (now : Int)
    (saveFail : Option SaveStep) :
    ∀ (fuel : Nat) (backoff : Int) (resps : List HttpResult)
      (auth : Option TokenData) (fs : FsState),
      resps.all lacksTokenField = true →
      (refreshLoop now saveFail fuel backoff resps auth fs).fs = fs := by
  intro fuel
  induction fuel with
  | zero =>
    intro backoff resps auth fs _
    simp [refreshLoop]
  | succ n ih =>
    intro backoff resps auth fs h
    match resps with
    | [] =>
      simpa [refreshLoop] using ih (backoff * 2) [] auth fs rfl
    | .ok d :: rs =>
      have hd : lacksTokenField (.ok d) = true := by
        simpa using (List.all_eq_true.mp h (.ok d) (by simp))
      simp only [lacksTokenField, Bool.or_eq_true, Option.isNone_iff_eq_none]
        at hd
      rcases hd with hd | hd <;>
        cases hat : d.access_token <;> cases hrt : d.refresh_token <;>
        simp_all [refreshLoop]
    | .status c :: rs =>
      have hrs : rs.all lacksTokenField = true := by
        rw [List.all_cons] at h
        exact (Bool.and_eq_true_iff.mp h).2
      simpa [refreshLoop] using ih (backoff * 2) rs auth fs hrs
    | .exc :: rs =>
      have hrs : rs.all lacksTokenField = true := by
        rw [List.all_cons] at h
        exact (Bool.and_eq_true_iff.mp h).2
      simpa [refreshLoop] using ih (backoff * 2) rs auth fs hrs

/-- C3: when every 200 body in the trace lacks access_token or
refresh_token, refresh_access_token never overwrites the persisted
credential file (the KeyError from indexing the missing field prevents
any save). -/
theorem refresh_missing_field_no_overwrite (now : Int)
    (responses : List HttpResult) (saveFail : Option SaveStep)
    (auth : Option TokenData) (fs : FsState)
    (h : responses.all lacksTokenField = true) :
    (refresh_access_token now responses saveFail auth fs).fs.file =
      fs.file := by
  match auth with
  | none => simp [refresh_access_token]
  | some td =>
    match hrt : td.refresh_token with
    | none => simp [refresh_access_token, hrt]
    | some rt =>
      simp only [refresh_access_token, hrt]
      rw [refreshLoop_lacking_preserves_fs now saveFail 5 1 responses
        (some td) fs h]

/-- Witness for C3: a trace with a transport failure, a rejected status
and a 200 missing refresh_token leaves a concrete persisted file
unchanged. -/
theorem refresh_missing_field_no_overwrite_witness :
    (refresh_access_token 1000
        [.exc, .status 500, .ok ⟨some "x", none, some 100, none⟩] none
        (some ⟨some "a", some "r", some 0, none, none⟩)
        ⟨some ⟨some "a", some "r", some 0, none, none⟩, false⟩).fs.file =
      some ⟨some "a", some "r", some 0, none, none⟩ :=
  refresh_missing_field_no_overwrite 1000
    [.exc, .status 500, .ok ⟨some "x", none, some 100, none⟩] none
    (some ⟨some "a", some "r", some 0, none, none⟩)
    ⟨some ⟨some "a", some "r", some 0, none, none⟩, false⟩ (by decide)

/-- Helper: when every response in the trace is a failed attempt, the
refresh retry loop exhausts its budget, discards the credential and
leaves the filesystem untouched. -/
theorem refreshLoop_all_fail_exhausts (now : Int)
    (saveFail : Option SaveStep) :
    ∀ (fuel : Nat) (backoff : Int) (resps : List HttpResult)
      (auth : Option TokenData) (fs : FsState),
      resps.all isFailure = true →
      (refreshLoop now saveFail fuel backoff resps auth fs).outcome =
          .exhausted ∧
      (refreshLoop now saveFail fuel backoff resps auth fs).auth = none ∧
      (refreshLoop now saveFail fuel backoff resps auth fs).fs = fs := by
  intro fuel
  induction fuel with
  | zero =>
    intro backoff resps auth fs _
    simp [refreshLoop]
  | succ n ih =>
    intro backoff resps auth fs h
    match resps with
    | [] =>
      simpa [refreshLoop] using ih (backoff * 2) [] auth fs rfl
    | .ok d :: rs =>
      exact absurd (List.all_eq_true.mp h (.ok d) (by simp)) (by
        simp [isFailure])
    | .status c :: rs =>
      have hrs : rs.all isFailure = true := by
        rw [List.all_cons] at h
        exact (Bool.and_eq_true_iff.mp h).2
      simpa [refreshLoop] using ih (backoff * 2) rs auth fs hrs
    | .exc :: rs =>
      have hrs : rs.all isFailure = true := by
        rw [List.all_cons] at h
        exact (Bool.and_eq_true_iff.mp h).2
      simpa [refreshLoop] using ih (backoff * 2) rs auth fs hrs

/-- C4: when every refresh attempt fails, refresh_access_token reports
exhaustion and discards the held credential; afterwards every read of the
access_token property returns none with no refresh call, and further
refresh attempts leave the state without a credential, until load_token
or save_token installs a new record. -/
theorem refresh_exhausted_discards_credential (now : Int)
    (responses : List HttpResult) (saveFail : Option SaveStep)
    (td : TokenData) (rt : String) (fs : FsState)
    (hrt : td.refresh_token = some rt)
    (h : responses.all isFailure = true) :
    (refresh_access_token now responses saveFail (some td) fs).outcome =
        .exhausted ∧
    (refresh_access_token now responses saveFail (some td) fs).auth =
        none ∧
    (∀ (now2 : Int) (refresh : Option TokenData → Option TokenData),
      access_token now2 refresh none = (none, none, 0)) ∧
    (∀ (now2 : Int) (rs2 : List HttpResult) (sf2 : Option SaveStep)
        (fs2 : FsState),
      (refresh_access_token now2 rs2 sf2 none fs2).auth = none) := by
  have hl := refreshLoop_all_fail_exhausts now saveFail 5 1 responses
    (some td) fs h
  refine ⟨?_, ?_, ?_, ?_⟩
  · simpa [refresh_access_token, hrt] using hl.1
  · simpa [refresh_access_token, hrt] using hl.2.1
  · intro now2 refresh
    simp [access_token]
  · intro now2 rs2 sf2 fs2
    simp [refresh_access_token]

/-- Witness for C4: five concrete failed attempts discard a concrete
credential, and a subsequent read returns none. -/
theorem refresh_exhausted_discards_credential_witness :
    (refresh_access_token 1000 [.status 500, .exc, .status 503, .exc, .exc]
        none (some ⟨some "a", some "r", some 0, none, none⟩)
        ⟨none, false⟩).outcome = .exhausted ∧
    (refresh_access_token 1000 [.status 500, .exc, .status 503, .exc, .exc]
        none (some ⟨some "a", some "r", some 0, none, none⟩)
        ⟨none, false⟩).auth = none ∧
    access_token 7 id (none : Option TokenData) = (none, none, 0) := by
  have h := refresh_exhausted_discards_credential 1000
    [.status 500, .exc, .status 503, .exc, .exc] none
    ⟨some "a", some "r", some 0, none, none⟩ "r" ⟨none, false⟩ rfl (by decide)
  exact ⟨h.1, h.2.1, h.2.2.1 7 id⟩

/-- C9: a held, expired credential whose record has no refresh_token is
served stale: refresh_access_token returns immediately leaving the state
unchanged, and the access_token property returns the expired token (one
no-op refresh call happens on the way). -/
theorem stale_token_served_without_refresh_token (now : Int)
    (responses : List HttpResult) (saveFail : Option SaveStep)
    (td : TokenData) (tok : String) (fs : FsState)
    (hrt : td.refresh_token = none)
    (hexp : td.expires_at.getD 0 - 300 ≤ now)
    (hat : td.access_token = some tok) :
    refresh_access_token now responses saveFail (some td) fs =
      ⟨.noRefreshToken, some td, fs, []⟩ ∧
    access_token now
        (fun a => (refresh_access_token now responses saveFail a fs).auth)
        (some td) = (some tok, some td, 1) := by
  have hr : refresh_access_token now responses saveFail (some td) fs =
      ⟨.noRefreshToken, some td, fs, []⟩ := by
    simp [refresh_access_token, hrt]
  have hv : ¬ now < td.expires_at.getD 0 - 300 := by omega
  refine ⟨hr, ?_⟩
  simp [access_token, is_token_valid, hv, hr, hat]

/-- Witness for C9: a concrete expired record with an access token but no
refresh token is served unchanged. -/
theorem stale_token_served_without_refresh_token_witness :
    refresh_access_token 1000 [.ok ⟨some "x", some "y", some 100, none⟩]
        none (some ⟨some "stale", none, some 900, none, none⟩)
        ⟨none, false⟩ =
      ⟨.noRefreshToken, some ⟨some "stale", none, some 900, none, none⟩,
        ⟨none, false⟩, []⟩ ∧
    access_token 1000
        (fun a => (refresh_access_token 1000
          [.ok ⟨some "x", some "y", some 100, none⟩] none a
          ⟨none, false⟩).auth)
        (some ⟨some "stale", none, some 900, none, none⟩) =
      (some "stale", some ⟨some "stale", none, some 900, none, none⟩, 1) :=
  stale_token_served_without_refresh_token 1000
    [.ok ⟨some "x", some "y", some 100, none⟩] none
    ⟨some "stale", none, some 900, none, none⟩ "stale" ⟨none, false⟩
    rfl (by decide) rfl

/-- C5: with tokens always available, a 401 on the first attempt forces
exactly one refresh and exactly one retry with no sleep: if the retry
gets a 200 the call returns its body after 2 requests; if the retry gets
another 401 the call fails terminally after 2 requests. In general a 401
on any attempt after the first is terminal: it answers with failure after
that one request, with no sleep and no refresh. -/
theorem request_401_policy {α : Type} (am : AuthModel α)
    (htok : ∀ x : α, ((am.getToken x).1).isSome = true) (a : α) :
    (∀ (body : String) (ra1 : Option Int) (rs : List ClientResp),
      (request am (.status 401 ra1 :: .ok body :: rs) a).result =
          some body ∧
      (request am (.status 401 ra1 :: .ok body :: rs) a).refreshes = 1 ∧
      (request am (.status 401 ra1 :: .ok body :: rs) a).sleeps = [] ∧
      (request am (.status 401 ra1 :: .ok body :: rs) a).requests = 2) ∧
    (∀ (ra1 ra2 : Option Int) (rs : List ClientResp),
      (request am (.status 401 ra1 :: .status 401 ra2 :: rs) a).result =
          none ∧
      (request am (.status 401 ra1 :: .status 401 ra2 :: rs) a).refreshes
          = 1 ∧
      (request am (.status 401 ra1 :: .status 401 ra2 :: rs) a).sleeps
          = [] ∧
      (request am (.status 401 ra1 :: .status 401 ra2 :: rs) a).requests
          = 2) ∧
    (∀ (fuel : Nat) (backoff : Int) (ra : Option Int)
        (rs : List ClientResp) (x : α),
      (requestLoop am (fuel + 1) false backoff (.status 401 ra :: rs) x) =
        ⟨none, (am.getToken x).2, [], 0, 1⟩) := by
  refine ⟨?_, ?_, ?_⟩
  · intro body ra1 rs
    rcases h1 : am.getToken a with ⟨t1, a2⟩
    have ht1 := htok a
    rw [h1] at ht1
    cases t1 with
    | none => simp at ht1
    | some s1 =>
      rcases h2 : am.getToken (am.refresh a2) with ⟨t2, a3⟩
      have ht2 := htok (am.refresh a2)
      rw [h2] at ht2
      cases t2 with
      | none => simp at ht2
      | some s2 => simp [request, requestLoop, h1, h2]
  · intro ra1 ra2 rs
    rcases h1 : am.getToken a with ⟨t1, a2⟩
    have ht1 := htok a
    rw [h1] at ht1
    cases t1 with
    | none => simp at ht1
    | some s1 =>
      rcases h2 : am.getToken (am.refresh a2) with ⟨t2, a3⟩
      have ht2 := htok (am.refresh a2)
      rw [h2] at ht2
      cases t2 with
      | none => simp at ht2
      | some s2 => simp [request, requestLoop, h1, h2]
  · intro fuel backoff ra rs x
    rcases h1 : am.getToken x with ⟨t1, x2⟩
    have ht1 := htok x
    rw [h1] at ht1
    cases t1 with
    | none => simp at ht1
    | some s1 => simp [requestLoop, h1]

/-- Witness for C5: under the constant-token credential manager, 401 then
200 succeeds with one refresh and two requests, and 401 then 401 fails
with one refresh and two requests. -/
theorem request_401_policy_witness :
    (request constAuth [.status 401 none, .ok "body"] ()).result =
        some "body" ∧
    (request constAuth [.status 401 none, .ok "body"] ()).refreshes = 1 ∧
    (request constAuth [.status 401 none, .ok "body"] ()).sleeps = [] ∧
    (request constAuth [.status 401 none, .ok "body"] ()).requests = 2 ∧
    (request constAuth [.status 401 none, .status 401 none] ()).result =
        none ∧
    (request constAuth [.status 401 none, .status 401 none] ()).requests
        = 2 := by
  have h := request_401_policy constAuth (fun _ => rfl) ()
  obtain ⟨hok, hterm, _⟩ := h
  obtain ⟨r1, r2, r3, r4⟩ := hok "body" none []
  obtain ⟨s1, _, _, s4⟩ := hterm none none []
  exact ⟨r1, r2, r3, r4, s1, s4⟩

/-- C6: with tokens always available, the response sequence 500, 500, 200
makes the call succeed on the third attempt with the third response body,
sleeping 1 second after the first failure and 2 seconds after the second
(the doubling schedule min(backoff, 60) starting at 1), with no refresh
forced. -/
theorem request_backoff_500_500_200 {α : Type} (am : AuthModel α)
    (htok : ∀ x : α, ((am.getToken x).1).isSome = true) (a : α)
    (body : String) (rs : List ClientResp) :
    (request am (.status 500 none :: .status 500 none :: .ok body :: rs)
        a).result = some body ∧
    (request am (.status 500 none :: .status 500 none :: .ok body :: rs)
        a).sleeps = [1, 2] ∧
    (request am (.status 500 none :: .status 500 none :: .ok body :: rs)
        a).requests = 3 ∧
    (request am (.status 500 none :: .status 500 none :: .ok body :: rs)
        a).refreshes = 0 := by
  rcases h1 : am.getToken a with ⟨t1, a2⟩
  have ht1 := htok a
  rw [h1] at ht1
  cases t1 with
  | none => simp at ht1
  | some s1 =>
    rcases h2 : am.getToken a2 with ⟨t2, a3⟩
    have ht2 := htok a2
    rw [h2] at ht2
    cases t2 with
    | none => simp at ht2
    | some s2 =>
      rcases h3 : am.getToken a3 with ⟨t3, a4⟩
      have ht3 := htok a3
      rw [h3] at ht3
      cases t3 with
      | none => simp at ht3
      | some s3 => simp [request, requestLoop, h1, h2, h3]

/-- Witness for C6: the concrete run 500, 500, 200 under the
constant-token credential manager. -/
theorem request_backoff_500_500_200_witness :
    (request constAuth [.status 500 none, .status 500 none, .ok "body"]
        ()).result = some "body" ∧
    (request constAuth [.status 500 none, .status 500 none, .ok "body"]
        ()).sleeps = [1, 2] ∧
    (request constAuth [.status 500 none, .status 500 none, .ok "body"]
        ()).requests = 3 ∧
    (request constAuth [.status 500 none, .status 500 none, .ok "body"]
        ()).refreshes = 0 :=
  request_backoff_500_500_200 constAuth (fun _ => rfl) () "body" []

/-- C10: update_state always resets the consecutive-error counter to 0
and records the observed state, also when the observed state equals the
current last known state. -/
theorem update_state_resets_error_counter (t : SleepTracker) (s : String) :
    (update_state t s).consecutive_errors = 0 ∧
    (update_state t s).last_known_state = s :=
  ⟨rfl, rfl⟩

end TeslaExporter
